import Mathlib

/-!
Shallow embedding of `lib/worker/scrape.py` from the quickpin worker: the
functions `scrape_account`, `_scrape_twitter_account`, `scrape_twitter_avatar`
and `_login_twitter`, together with the external collaborators they touch
(the ORM-backed profile store, the redis session cache, the job queues and
the pub/sub channel).  Pure Python fragments become Lean functions; the
stateful parts are explicit state passing over a `DBState` and an
`Option Pickled` session-cache cell.  Exceptions become an explicit
`PyError` sum carried in `Except`.  JSON payloads published over pub/sub are
modelled in parsed form as ordered key/value lists, which preserves the
insertion order of the Python dicts that produce them.
-/

set_option maxRecDepth 8000

/-- A JSON scalar as it appears in the published messages: the code only ever
publishes strings and integers. -/
inductive JVal where
  | s (v : String)
  | n (v : Int)
deriving Repr, DecidableEq

/-- A JSON object in parsed form, keys in dict insertion order. -/
abbrev JObj := List (String × JVal)

/-- The Python exceptions that the worker code can raise, as a sum type.
`httpError` models `urllib.error.HTTPError` (imported by the module);
`indexError` models the `IndexError` from indexing `[0]` into an empty
selector result; `keyError` the `KeyError` from a missing tag attribute or
header; `valueError` covers `int()` failures and the explicit
`raise ValueError(...)` sites; `typeError` models a `TypeError` raised by a
call with a signature mismatch; `nameError` models evaluation of an unbound
module-level name; `noResultFound` and `multipleResultsFound` model the
SQLAlchemy exceptions that `Query.one()` can raise. -/
inductive PyError where
  | httpError (code : Nat) (msg : String)
  | indexError
  | keyError
  | valueError (msg : String)
  | typeError (msg : String)
  | nameError (missing : String)
  | noResultFound
  | multipleResultsFound
deriving Repr, DecidableEq

/-- An HTML element as the scraper sees it through BeautifulSoup: a finite
attribute table and the text returned by `get_text()`. -/
structure Element where
  attrs : List (String × String)
  text : String
deriving Repr, DecidableEq

/-- Subscript access `el[attr]` on a BeautifulSoup tag: raises `KeyError`
when the attribute is absent. -/
def Element.attrE (el : Element) (k : String) : Except PyError String :=
  match el.attrs.lookup k with
  | some v => Except.ok v
  | none => Except.error PyError.keyError

/-- A parsed HTML page as a finite table from CSS selector to the list of
matching elements; a selector not in the table matches nothing. -/
structure Page where
  elems : List (String × List Element)
deriving Repr, DecidableEq

/-- `soup.select(sel)`: the list of elements matching the selector. -/
def Page.select (p : Page) (sel : String) : List Element :=
  match p.elems.lookup sel with
  | some es => es
  | none => []

/-- `soup.select(sel)[0]`: raises `IndexError` when the selector matches
nothing, as in the source, which never checks emptiness before indexing. -/
def selectFirst (p : Page) (sel : String) : Except PyError Element :=
  match p.select sel with
  | [] => Except.error PyError.indexError
  | e :: _ => Except.ok e

/-- The digit-string value of a list of decimal digit characters. -/
def digitsVal (cs : List Char) : Nat :=
  cs.foldl (fun n c => n * 10 + (c.toNat - 48)) 0

/-- Python `int(s)` on the strings this scraper feeds it (an optional sign
followed by decimal digits): raises `ValueError` on anything else, never
silently coercing to zero. -/
def pyIntParse (s : String) : Except PyError Int :=
  match s.data with
  | [] => Except.error (PyError.valueError ("invalid literal for int: " ++ s))
  | '-' :: rest =>
    if rest ≠ [] ∧ rest.all (fun c => c.isDigit) then
      Except.ok (-(Int.ofNat (digitsVal rest)))
    else Except.error (PyError.valueError ("invalid literal for int: " ++ s))
  | cs =>
    if cs.all (fun c => c.isDigit) then
      Except.ok (Int.ofNat (digitsVal cs))
    else Except.error (PyError.valueError ("invalid literal for int: " ++ s))

/-- Python `s.replace(",", "")`: drop every comma. -/
def stripCommas (s : String) : String :=
  String.mk (s.data.filter (fun c => c ≠ ','))

/-- Whether the first list of characters is a leading segment of the
second. -/
def charsLeading : List Char → List Char → Bool
  | [], _ => true
  | _, [] => false
  | c :: cs, d :: ds => c == d && charsLeading cs ds

/-- Python `s.startswith(pre)`. -/
def strLeading (pre s : String) : Bool := charsLeading pre.data s.data

/-- Modelled from the spec: the `File` entity of the `model` package (not
under src/): a stored binary asset with a name, a MIME type and raw content
bytes, owned by a profile. -/
structure File where
  id : Nat
  name : String
  mime : String
  content : String
deriving Repr, DecidableEq

/-- Modelled from the spec: the `Profile` entity of the `model` package (not
under src/): identity is the pair `(site, original_id)` under a uniqueness
constraint, the constructor `Profile(site, original_id, name)` sets the
display name, and the scraped attribute columns (description and the three
counts) start absent; the avatar collection starts empty. -/
structure Profile where
  id : Nat
  site : String
  original_id : String
  name : String
  description : Option String := none
  post_count : Option Int := none
  friend_count : Option Int := none
  follower_count : Option Int := none
  avatars : List File := []
deriving Repr, DecidableEq

/-- Modelled from the spec: the transactional persistence store behind the
SQLAlchemy session: the committed rows, plus the surrogate-id counters the
database assigns on insert.  Only committed state is represented; attribute
assignments on ORM objects reach the store only at a `commit()`. -/
structure DBState where
  profiles : List Profile
  nextId : Nat
  nextFileId : Nat
deriving Repr, DecidableEq

/-- Well-formedness of the committed store: the `(site, original_id)`
uniqueness constraint holds, surrogate ids are distinct, and every assigned
id is below the id counter. -/
def DBState.wf (db : DBState) : Prop :=
  db.profiles.Pairwise (fun p q => ¬(p.site = q.site ∧ p.original_id = q.original_id)) ∧
  db.profiles.Pairwise (fun p q => p.id ≠ q.id) ∧
  ∀ p ∈ db.profiles, p.id < db.nextId

/-- A value stored under the `twitter_session` redis key: either bytes that
`pickle.loads` turns back into a session, or bytes on which it raises. -/
inductive Pickled where
  | good (s : Nat)
  | bad
deriving Repr, DecidableEq

/-- The network environment a login attempt runs against: the login page
response, the response to the credential POST, and the session object a
fresh handshake would produce (sessions are opaque, modelled as `Nat`). -/
structure LoginWorld where
  homeStatus : Nat
  homePage : Page
  loginStatus : Nat
  loginLocation : Option String
  freshSession : Nat
deriving Repr, DecidableEq

instance {ε α : Type} [DecidableEq ε] [DecidableEq α] : DecidableEq (Except ε α) := fun a b =>
  match a, b with
  | Except.ok x, Except.ok y =>
    if h : x = y then isTrue (by rw [h]) else isFalse (by intro hh; cases hh; exact h rfl)
  | Except.error x, Except.error y =>
    if h : x = y then isTrue (by rw [h]) else isFalse (by intro hh; cases hh; exact h rfl)
  | Except.ok _, Except.error _ => isFalse (by intro hh; cases hh)
  | Except.error _, Except.ok _ => isFalse (by intro hh; cases hh)

/-- The observable outcome of `_login_twitter`: the returned session or
raised error, the resulting `twitter_session` cache cell, and counts of
network calls made and cache writes performed. -/
structure LoginOutcome where
  res : Except PyError Nat
  store : Option Pickled
  netCalls : Nat
  storeWrites : Nat
deriving Repr, DecidableEq

/-- Embedding of the fresh-handshake part of `_login_twitter` (scrape.py
lines 169-223), reached when no cached session is usable.  It fetches the login page, requires status 200, extracts the
CSRF token element (first match; its `value` attribute read by subscript),
POSTs the credentials without following redirects, and requires status 302.
On 302, `headers["Location"]` is read (a missing header is a `KeyError`);
a location leading back to `https://twitter.com/login` reaches the line
`raise click.ClickException(...)` — but the module never imports `click`,
so evaluating that unbound name raises `NameError` instead.  Only the
fully successful path pickles the session and writes the cache. -/
def login_twitter_fresh (w : LoginWorld) (store : Option Pickled) : LoginOutcome :=
    if w.homeStatus ≠ 200 then
      ⟨Except.error (PyError.valueError
        ("Not able to fetch Twitter login page (" ++ toString w.homeStatus ++ ")")),
       store, 1, 0⟩
    else
      match w.homePage.select "input[name=authenticity_token]" with
      | [] =>
        ⟨Except.error (PyError.valueError
          ("Expected >=1 elements matching selector \"input[name=authenticity_token]\", found 0 instead.")),
         store, 1, 0⟩
      | el :: _ =>
        match el.attrE "value" with
        | Except.error e => ⟨Except.error e, store, 1, 0⟩
        | Except.ok _csrf =>
          if w.loginStatus ≠ 302 then
            ⟨Except.error (PyError.valueError
              ("Not able to log in to Twitter " ++ toString w.loginStatus)),
             store, 2, 0⟩
          else
            match w.loginLocation with
            | none => ⟨Except.error PyError.keyError, store, 2, 0⟩
            | some loc =>
              if strLeading "https://twitter.com/login" loc then
                ⟨Except.error (PyError.nameError "click"), store, 2, 0⟩
              else
                ⟨Except.ok w.freshSession, some (Pickled.good w.freshSession), 2, 1⟩

/-- The cache-hit fast path wrapped around the fresh handshake: a cached
session that unpickles is returned at once with no network traffic and no
cache write; anything else (no entry, or bytes on which `pickle.loads`
raises, swallowed by the bare `except: pass`) falls through to the fresh
handshake above. -/
def login_twitter (w : LoginWorld) (store : Option Pickled) : LoginOutcome :=
  match store with
  | some (Pickled.good s) => ⟨Except.ok s, store, 0, 0⟩
  | _ => login_twitter_fresh w store

/-- The selector-driven extraction of the Twitter user id (scrape.py lines
74-75): first match of the identity selector, then subscript access to its
`data-user-id` attribute.  An empty match list raises a bare `IndexError`; a
missing attribute raises `KeyError`.  The source classifies neither. -/
def extractUserId (html : Page) : Except PyError String := do
  let el ← selectFirst html ".ProfileNav-item--userActions .user-actions"
  el.attrE "data-user-id"

/-- The secondary fields one successful extraction produces. -/
structure TwitterFields where
  description : String
  post_count : Int
  friend_count : Int
  follower_count : Int
  avatar_url : String
deriving Repr, DecidableEq

/-- The selector-driven extraction of the secondary fields (scrape.py lines
91-108), in source order: bio text, then each count as
`int(text.replace(",", ""))`, then the avatar URL from the `src` attribute.
Each `[0]` on an empty match raises `IndexError`; a non-numeric count raises
`ValueError`; a missing `src` raises `KeyError`. -/
def extractSecondary (html : Page) : Except PyError TwitterFields := do
  let bioEl ← selectFirst html ".ProfileHeaderCard-bio"
  let postEl ← selectFirst html ".ProfileNav-item--tweets .ProfileNav-value"
  let postCount ← pyIntParse (stripCommas postEl.text)
  let friendEl ← selectFirst html ".ProfileNav-item--following .ProfileNav-value"
  let friendCount ← pyIntParse (stripCommas friendEl.text)
  let folEl ← selectFirst html ".ProfileNav-item--followers .ProfileNav-value"
  let folCount ← pyIntParse (stripCommas folEl.text)
  let avEl ← selectFirst html ".ProfileAvatar-image"
  let avUrl ← avEl.attrE "src"
  Except.ok ⟨bioEl.text, postCount, friendCount, folCount, avUrl⟩

/-- The identity predicate of the upsert: rows matching
`Profile.site == "twitter"` and `Profile.original_id == user_id`. -/
def identMatch (uid : String) (p : Profile) : Bool :=
  p.site == "twitter" && p.original_id == uid

/-- SQLAlchemy `Query.one()`: the sole element of the result set, raising
`NoResultFound` or `MultipleResultsFound` otherwise. -/
def queryOne (l : List Profile) : Except PyError Profile :=
  match l with
  | [] => Except.error PyError.noResultFound
  | [p] => Except.ok p
  | _ :: _ :: _ => Except.error PyError.multipleResultsFound

/-- Embedding of the upsert at scrape.py lines 76-87: construct
`Profile("twitter", user_id, username)`, `add` it and `commit()`.  The
commit raises `IntegrityError` exactly when a committed row with the same
`(site, original_id)` identity exists; in that case the session is rolled
back (the failed insert is discarded, leaving the committed store
unchanged) and the existing row is re-read with
`query(Profile).filter(site).filter(original_id).one()`.  Otherwise the
insert commits a fresh row carrying the next surrogate id. -/
def upsertTwitterProfile (db : DBState) (userId username : String) :
    Except PyError (DBState × Profile) :=
  if db.profiles.any (identMatch userId) then
    match queryOne (db.profiles.filter (identMatch userId)) with
    | Except.ok p => Except.ok (db, p)
    | Except.error e => Except.error e
  else
    let p : Profile := { id := db.nextId, site := "twitter", original_id := userId, name := username }
    Except.ok ({ db with profiles := db.profiles ++ [p], nextId := db.nextId + 1 }, p)

/-- The four attribute assignments of scrape.py lines 93-105 as they land on
a row: description and the three counts are set; `name` and everything else
are untouched. -/
def applyFields (f : TwitterFields) (p : Profile) : Profile :=
  { p with description := some f.description, post_count := some f.post_count,
           friend_count := some f.friend_count, follower_count := some f.follower_count }

/-- The second `commit()` (scrape.py line 110): the description and the
three counts assigned to the resolved ORM object reach the committed row —
and nothing else does; in particular `name` is never reassigned. -/
def commitFields (db : DBState) (pid : Nat) (f : TwitterFields) : DBState :=
  { db with profiles := db.profiles.map (fun p =>
      if p.id == pid then applyFields f p else p) }

/-- A job placed on one of the two queues (scrape.py lines 112-113): the
avatar fetch with the resolved profile id and scraped avatar URL, or the
index update with the resolved profile id. -/
inductive Job where
  | avatar (profileId : Nat) (url : String)
  | index (profileId : Nat)
deriving Repr, DecidableEq

/-- The network environment one account scrape runs against: the login
exchange plus the profile home-page response. -/
structure ScrapeWorld where
  login : LoginWorld
  profileStatus : Nat
  profilePage : Page
deriving Repr, DecidableEq

/-- The observable outcome of `_scrape_twitter_account`: the returned
success payload or raised error, the committed store, the session cache and
the enqueued jobs. -/
structure ScrapeOutcome where
  result : Except PyError JObj
  db : DBState
  store : Option Pickled
  jobs : List Job
deriving Repr, DecidableEq

/-- Embedding of `_scrape_twitter_account` (scrape.py lines 57-117).  On a
non-200 home page the source executes
`raise HTTPError(code=response.status_code, message=message)`; but
`urllib.error.HTTPError.__init__` has signature `(url, code, msg, hdrs,
fp)` and accepts no `message` keyword, so that call itself raises
`TypeError` — no `HTTPError` is ever constructed.  After extraction of the
user id, the upsert commits; a later extraction failure aborts with the
identity commit already durable and the field assignments never committed.
On full success the field commit runs, the avatar and index jobs are
enqueued with the resolved profile id, and the success dict is returned in
its insertion order, `id` added last. -/
def scrape_twitter_account (username : String) (w : ScrapeWorld) (db : DBState)
    (store : Option Pickled) : ScrapeOutcome :=
  let lo := login_twitter w.login store
  match lo.res with
  | Except.error e => ⟨Except.error e, db, lo.store, []⟩
  | Except.ok _sess =>
    if w.profileStatus ≠ 200 then
      ⟨Except.error (PyError.typeError
        "HTTPError called with unexpected keyword argument message and missing url, msg, hdrs"),
       db, lo.store, []⟩
    else
      match extractUserId w.profilePage with
      | Except.error e => ⟨Except.error e, db, lo.store, []⟩
      | Except.ok userId =>
        match upsertTwitterProfile db userId username with
        | Except.error e => ⟨Except.error e, db, lo.store, []⟩
        | Except.ok (db1, profile) =>
          match extractSecondary w.profilePage with
          | Except.error e => ⟨Except.error e, db1, lo.store, []⟩
          | Except.ok f =>
            let db2 := commitFields db1 profile.id f
            let data : JObj :=
              [("name", JVal.s username), ("site", JVal.s "twitter"),
               ("description", JVal.s f.description),
               ("post_count", JVal.n f.post_count),
               ("friend_count", JVal.n f.friend_count),
               ("follower_count", JVal.n f.follower_count),
               ("id", JVal.n (Int.ofNat profile.id))]
            ⟨Except.ok data, db2, lo.store,
             [Job.avatar profile.id f.avatar_url, Job.index profile.id]⟩

/-- The failure message built by the `except HTTPError` arm of
`scrape_account` (lines 37-43), keys in dict insertion order. -/
def failureMessage (name site : String) (code : Nat) : JObj :=
  [("name", JVal.s name), ("site", JVal.s site),
   ("error_code", JVal.n (Int.ofNat code)),
   ("error", JVal.s (if code = 404 then "Profile not found."
                     else "Error while communicating with " ++ site ++ "."))]

/-- The failure message built by the generic `except Exception` arm of
`scrape_account` (lines 44-50); it carries no `error_code` key. -/
def unknownMessage (name site : String) : JObj :=
  [("name", JVal.s name), ("site", JVal.s site),
   ("error", JVal.s "Unknown error while fetching profile.")]

/-- The try/except publication logic of `scrape_account` (lines 34-51) over
the scraper outcome: a success payload is published as-is; an `HTTPError`
is converted to the coded failure message and swallowed; any other
exception is published as the generic unknown-error message and re-raised. -/
def publishOutcome (site name : String) (r : Except PyError JObj) :
    List (String × JObj) × Option PyError :=
  match r with
  | Except.ok data => ([("profile", data)], none)
  | Except.error (PyError.httpError code _) =>
    ([("profile", failureMessage name site code)], none)
  | Except.error e => ([("profile", unknownMessage name site)], some e)

/-- The observable outcome of `scrape_account`: the messages published on
pub/sub channels, the exception propagating out (if any), the committed
store, the session cache and the enqueued jobs. -/
structure AccountOutcome where
  published : List (String × JObj)
  raised : Option PyError
  db : DBState
  store : Option Pickled
  jobs : List Job
deriving Repr, DecidableEq

/-- Embedding of `scrape_account` (scrape.py lines 22-54): dispatch on the
site through the scraper table (which holds only `twitter`), run the
scraper under the try/except of `publishOutcome`, and raise `ValueError`
for an unsupported site without publishing anything. -/
def scrape_account (site name : String) (w : ScrapeWorld) (db : DBState)
    (store : Option Pickled) : AccountOutcome :=
  if site = "twitter" then
    let o := scrape_twitter_account name w db store
    let pr := publishOutcome site name o.result
    ⟨pr.1, pr.2, o.db, o.store, o.jobs⟩
  else
    ⟨[], some (PyError.valueError ("No scraper exists for site \"" ++ site ++ "\"")),
     db, store, []⟩

/-- The network environment an avatar fetch runs against. -/
structure AvatarWorld where
  status : Nat
  contentType : Option String
  content : String
deriving Repr, DecidableEq

/-- The observable outcome of `scrape_twitter_avatar`. -/
structure AvatarOutcome where
  result : Except PyError Unit
  db : DBState
  published : List (String × JObj)
deriving Repr, DecidableEq

/-- Python `url.split("/")[-1]`: the characters after the last slash. -/
def lastSegmentAux (acc : List Char) : List Char → List Char
  | [] => acc
  | '/' :: rest => lastSegmentAux [] rest
  | c :: rest => lastSegmentAux (acc ++ [c]) rest

/-- The asset name derived from the URL (scrape.py line 141). -/
def urlLastSegment (url : String) : String :=
  String.mk (lastSegmentAux [] url.data)

/-- Embedding of `scrape_twitter_avatar` (scrape.py lines 120-153).  The
download runs first; a non-200 status raises a bare `ValueError()` before
any store access, so the profile-existence check (which raises a described
`ValueError` when `query(...).first()` is `None`) happens only after a
successful download.  On success a `File` is built from the last URL
segment, the `content-type` header (defaulted to a generic binary type) and
the raw bytes, appended to the avatar collection of the matching profile,
committed, and announced on the `avatar` channel. -/
def scrape_twitter_avatar (id_ : Nat) (url : String) (w : AvatarWorld)
    (db : DBState) : AvatarOutcome :=
  if w.status ≠ 200 then
    ⟨Except.error (PyError.valueError ""), db, []⟩
  else
    match (db.profiles.filter (fun p => p.id == id_)).head? with
    | none =>
      ⟨Except.error (PyError.valueError ("No profile exists with id=" ++ toString id_)), db, []⟩
    | some _ =>
      let name := urlLastSegment url
      let mime := match w.contentType with
        | some m => m
        | none => "application/octet-stream"
      let file : File := ⟨db.nextFileId, name, mime, w.content⟩
      let db2 : DBState :=
        { db with
          profiles := db.profiles.map (fun p =>
            if p.id == id_ then { p with avatars := p.avatars ++ [file] } else p),
          nextFileId := db.nextFileId + 1 }
      ⟨Except.ok (), db2,
       [("avatar", [("id", JVal.n (Int.ofNat id_)),
                    ("url", JVal.s ("/api/file/" ++ toString file.id))])]⟩

/-! Concrete fixtures: a login exchange and profile page against which the
model evaluates, used to instantiate the general theorems. -/

/-- A profile page carrying all five selectors with parseable counts. -/
def exPage : Page := ⟨[
  (".ProfileNav-item--userActions .user-actions", [⟨[("data-user-id", "12345")], ""⟩]),
  (".ProfileHeaderCard-bio", [⟨[], "Hello world"⟩]),
  (".ProfileNav-item--tweets .ProfileNav-value", [⟨[], "1,234"⟩]),
  (".ProfileNav-item--following .ProfileNav-value", [⟨[], "56"⟩]),
  (".ProfileNav-item--followers .ProfileNav-value", [⟨[], "789"⟩]),
  (".ProfileAvatar-image", [⟨[("src", "https://pbs.twimg.com/a/b.jpg")], ""⟩])]⟩

/-- The same page with the identity selector matching nothing. -/
def noIdentityPage : Page := ⟨[
  (".ProfileHeaderCard-bio", [⟨[], "Hello world"⟩]),
  (".ProfileNav-item--tweets .ProfileNav-value", [⟨[], "1,234"⟩]),
  (".ProfileNav-item--following .ProfileNav-value", [⟨[], "56"⟩]),
  (".ProfileNav-item--followers .ProfileNav-value", [⟨[], "789"⟩]),
  (".ProfileAvatar-image", [⟨[("src", "https://pbs.twimg.com/a/b.jpg")], ""⟩])]⟩

/-- The same page with the secondary bio selector matching nothing. -/
def noBioPage : Page := ⟨[
  (".ProfileNav-item--userActions .user-actions", [⟨[("data-user-id", "12345")], ""⟩]),
  (".ProfileNav-item--tweets .ProfileNav-value", [⟨[], "1,234"⟩]),
  (".ProfileNav-item--following .ProfileNav-value", [⟨[], "56"⟩]),
  (".ProfileNav-item--followers .ProfileNav-value", [⟨[], "789"⟩]),
  (".ProfileAvatar-image", [⟨[("src", "https://pbs.twimg.com/a/b.jpg")], ""⟩])]⟩

/-- A login exchange that succeeds: login page up, CSRF token present,
credential POST answered with a 302 away from the login page. -/
def exLogin : LoginWorld :=
  ⟨200, ⟨[("input[name=authenticity_token]", [⟨[("value", "tok")], ""⟩])]⟩, 302,
   some "https://twitter.com/home", 7⟩

/-- The same exchange except the 302 redirects back to the login page, the
bad-credentials signal. -/
def badCredLogin : LoginWorld :=
  { exLogin with loginLocation := some "https://twitter.com/login?redirect_after" }

/-- A scrape environment where everything works. -/
def exWorld : ScrapeWorld := ⟨exLogin, 200, exPage⟩

/-- A scrape environment whose page lacks the identity selector. -/
def wNoIdentity : ScrapeWorld := ⟨exLogin, 200, noIdentityPage⟩

/-- A scrape environment whose page lacks the bio selector. -/
def wNoBio : ScrapeWorld := ⟨exLogin, 200, noBioPage⟩

/-- An empty store. -/
def exDb : DBState := ⟨[], 0, 0⟩

/-- A store already holding the profile the fixture page identifies, created
earlier under the handle `alice`. -/
def exDbAlice : DBState :=
  ⟨[{ id := 0, site := "twitter", original_id := "12345", name := "alice" }], 1, 0⟩

/-- The number of committed rows carrying the twitter identity `uid`. -/
def countIdentity (db : DBState) (uid : String) : Nat :=
  (db.profiles.filter (identMatch uid)).length

/-! Helper lemmas about the upsert and the field commit. -/

theorem identMatch_iff (uid : String) (p : Profile) :
    identMatch uid p = true ↔ p.site = "twitter" ∧ p.original_id = uid := by
  simp [identMatch]

theorem filter_identMatch_singleton (uid : String) :
    ∀ (l : List Profile),
    l.Pairwise (fun p q => ¬(p.site = q.site ∧ p.original_id = q.original_id)) →
    ∀ p ∈ l, identMatch uid p = true →
    l.filter (identMatch uid) = [p] := by
  intro l
  induction l with
  | nil => intro _ p hp; cases hp
  | cons a t ih =>
    intro hpw p hp hm
    have hrel := (List.pairwise_cons.mp hpw).1
    have htail := (List.pairwise_cons.mp hpw).2
    rcases List.mem_cons.mp hp with rfl | hpt
    · have hnil : t.filter (identMatch uid) = [] := by
        apply List.filter_eq_nil_iff.mpr
        intro q hq
        have hne := hrel q hq
        intro hmq
        rcases (identMatch_iff uid p).mp hm with ⟨hs, ho⟩
        rcases (identMatch_iff uid q).mp hmq with ⟨hs2, ho2⟩
        exact hne ⟨hs.trans hs2.symm, ho.trans ho2.symm⟩
      simp [List.filter_cons, hm, hnil]
    · have hma : identMatch uid a = false := by
        by_contra hcon
        have hma' : identMatch uid a = true := by
          cases h : identMatch uid a with
          | false => exact absurd h hcon
          | true => rfl
        rcases (identMatch_iff uid a).mp hma' with ⟨hs, ho⟩
        rcases (identMatch_iff uid p).mp hm with ⟨hs2, ho2⟩
        exact hrel p hpt ⟨hs.trans hs2.symm, ho.trans ho2.symm⟩
      simp [List.filter_cons, hma]
      exact ih htail p hpt hm

theorem upsert_existing (db : DBState) (uid name : String)
    (hpw : db.profiles.Pairwise
      (fun p q => ¬(p.site = q.site ∧ p.original_id = q.original_id)))
    (p : Profile) (hp : p ∈ db.profiles) (hm : identMatch uid p = true) :
    upsertTwitterProfile db uid name = Except.ok (db, p) := by
  have hany : db.profiles.any (identMatch uid) = true :=
    List.any_eq_true.mpr ⟨p, hp, hm⟩
  have hfil := filter_identMatch_singleton uid db.profiles hpw p hp hm
  simp [upsertTwitterProfile, hany, hfil, queryOne]

theorem upsert_fresh (db : DBState) (uid name : String)
    (h : db.profiles.any (identMatch uid) = false) :
    upsertTwitterProfile db uid name =
      Except.ok
        ({ db with
            profiles := db.profiles ++
              [{ id := db.nextId, site := "twitter", original_id := uid, name := name }],
            nextId := db.nextId + 1 },
         { id := db.nextId, site := "twitter", original_id := uid, name := name }) := by
  simp [upsertTwitterProfile, h]

theorem upsert_db_cases (db : DBState) (uid name : String) (db1 : DBState) (p : Profile)
    (h : upsertTwitterProfile db uid name = Except.ok (db1, p)) :
    db1 = db ∨
    db1.profiles = db.profiles ++
      [{ id := db.nextId, site := "twitter", original_id := uid, name := name }] := by
  by_cases hany : db.profiles.any (identMatch uid) = true
  · left
    unfold upsertTwitterProfile at h
    rw [if_pos hany] at h
    cases hq : queryOne (db.profiles.filter (identMatch uid)) with
    | ok q => rw [hq] at h; cases h; rfl
    | error e => rw [hq] at h; cases h
  · right
    have hany' : db.profiles.any (identMatch uid) = false := by
      cases hc : db.profiles.any (identMatch uid) with
      | false => rfl
      | true => exact absurd hc hany
    rw [upsert_fresh db uid name hany'] at h
    cases h
    rfl

theorem eq_of_pairwise_ids :
    ∀ (l : List Profile), l.Pairwise (fun p q => p.id ≠ q.id) →
    ∀ p ∈ l, ∀ q ∈ l, p.id = q.id → p = q := by
  intro l
  induction l with
  | nil => intro _ p hp; cases hp
  | cons a t ih =>
    intro hpw p hp q hq hid
    have hrel := (List.pairwise_cons.mp hpw).1
    have htail := (List.pairwise_cons.mp hpw).2
    rcases List.mem_cons.mp hp with rfl | hpt
    · rcases List.mem_cons.mp hq with rfl | hqt
      · rfl
      · exact absurd hid (hrel q hqt)
    · rcases List.mem_cons.mp hq with rfl | hqt
      · exact absurd hid.symm (hrel p hpt)
      · exact ih htail p hpt q hqt hid

theorem commitFields_length (db : DBState) (pid : Nat) (f : TwitterFields) :
    (commitFields db pid f).profiles.length = db.profiles.length := by
  simp [commitFields]

theorem mem_commitFields_of_ne (db : DBState) (pid : Nat) (f : TwitterFields)
    (p : Profile) (hp : p ∈ db.profiles) (hne : p.id ≠ pid) :
    p ∈ (commitFields db pid f).profiles := by
  unfold commitFields
  have himg : (fun q => if q.id == pid then applyFields f q else q) p = p := by
    have hb : (p.id == pid) = false := by
      cases h : p.id == pid with
      | false => rfl
      | true => exact absurd (beq_iff_eq.mp h) hne
    simp [hb]
  exact himg ▸ List.mem_map_of_mem _ hp

theorem mem_commitFields_updated (db : DBState) (f : TwitterFields)
    (p : Profile) (hp : p ∈ db.profiles) :
    applyFields f p ∈ (commitFields db p.id f).profiles := by
  unfold commitFields
  have himg : (fun q => if q.id == p.id then applyFields f q else q) p = applyFields f p := by
    simp
  exact himg ▸ List.mem_map_of_mem _ hp

theorem mem_of_commitFields (db : DBState) (pid : Nat) (f : TwitterFields)
    (q : Profile) (hq : q ∈ (commitFields db pid f).profiles) :
    ∃ r ∈ db.profiles, q = (if r.id == pid then applyFields f r else r) := by
  unfold commitFields at hq
  rcases List.mem_map.mp hq with ⟨r, hr, himg⟩
  exact ⟨r, hr, himg.symm⟩

theorem upsert_ok (db : DBState) (uid name : String)
    (hpw : db.profiles.Pairwise
      (fun p q => ¬(p.site = q.site ∧ p.original_id = q.original_id))) :
    ∃ db1 p, upsertTwitterProfile db uid name = Except.ok (db1, p) := by
  cases hany : db.profiles.any (identMatch uid) with
  | true =>
    rcases List.any_eq_true.mp hany with ⟨p, hp, hm⟩
    exact ⟨db, p, upsert_existing db uid name hpw p hp hm⟩
  | false =>
    exact ⟨_, _, upsert_fresh db uid name hany⟩

theorem wf_after_fresh (db : DBState) (uid name : String)
    (hwf : db.wf) (h : db.profiles.any (identMatch uid) = false) :
    DBState.wf
      { db with
          profiles := db.profiles ++
            [{ id := db.nextId, site := "twitter", original_id := uid, name := name }],
          nextId := db.nextId + 1 } := by
  rcases hwf with ⟨hident, hids, hbound⟩
  have hnomatch : ∀ q ∈ db.profiles, ¬(identMatch uid q = true) := by
    intro q hq hm
    have := List.any_eq_true.mpr ⟨q, hq, hm⟩
    rw [h] at this
    cases this
  refine ⟨?_, ?_, ?_⟩
  · rw [List.pairwise_append]
    refine ⟨hident, List.pairwise_singleton _ _, ?_⟩
    intro a ha b hb
    rcases List.mem_singleton.mp hb with rfl
    intro hcon
    exact hnomatch a ha ((identMatch_iff uid a).mpr ⟨hcon.1, hcon.2⟩)
  · rw [List.pairwise_append]
    refine ⟨hids, List.pairwise_singleton _ _, ?_⟩
    intro a ha b hb
    rcases List.mem_singleton.mp hb with rfl
    exact Nat.ne_of_lt (hbound a ha)
  · intro p hp
    rcases List.mem_append.mp hp with hin | hnew
    · exact Nat.lt_succ_of_lt (hbound p hin)
    · rcases List.mem_singleton.mp hnew with rfl
      exact Nat.lt_succ_self _

theorem scrape_pipeline_ok (username uid : String) (sess : Nat) (f : TwitterFields)
    (w : ScrapeWorld) (db db1 : DBState) (store : Option Pickled) (p : Profile)
    (hlogin : (login_twitter w.login store).res = Except.ok sess)
    (hstatus : w.profileStatus = 200)
    (hid : extractUserId w.profilePage = Except.ok uid)
    (hup : upsertTwitterProfile db uid username = Except.ok (db1, p))
    (hsec : extractSecondary w.profilePage = Except.ok f) :
    scrape_twitter_account username w db store =
      ⟨Except.ok
        [("name", JVal.s username), ("site", JVal.s "twitter"),
         ("description", JVal.s f.description), ("post_count", JVal.n f.post_count),
         ("friend_count", JVal.n f.friend_count), ("follower_count", JVal.n f.follower_count),
         ("id", JVal.n (Int.ofNat p.id))],
       commitFields db1 p.id f, (login_twitter w.login store).store,
       [Job.avatar p.id f.avatar_url, Job.index p.id]⟩ := by
  unfold scrape_twitter_account
  simp only [hlogin, hstatus, hid, hup, hsec]
  simp

theorem scrape_pipeline_secondary_err (username uid : String) (sess : Nat) (e : PyError)
    (w : ScrapeWorld) (db db1 : DBState) (store : Option Pickled) (p : Profile)
    (hlogin : (login_twitter w.login store).res = Except.ok sess)
    (hstatus : w.profileStatus = 200)
    (hid : extractUserId w.profilePage = Except.ok uid)
    (hup : upsertTwitterProfile db uid username = Except.ok (db1, p))
    (hsec : extractSecondary w.profilePage = Except.error e) :
    scrape_twitter_account username w db store =
      ⟨Except.error e, db1, (login_twitter w.login store).store, []⟩ := by
  unfold scrape_twitter_account
  simp only [hlogin, hstatus, hid, hup, hsec]
  simp

theorem scrape_account_twitter_def (name : String) (w : ScrapeWorld) (db : DBState)
    (store : Option Pickled) :
    scrape_account "twitter" name w db store =
      ⟨(publishOutcome "twitter" name (scrape_twitter_account name w db store).result).1,
       (publishOutcome "twitter" name (scrape_twitter_account name w db store).result).2,
       (scrape_twitter_account name w db store).db,
       (scrape_twitter_account name w db store).store,
       (scrape_twitter_account name w db store).jobs⟩ := by
  simp [scrape_account]

/-- Claim C1: the upsert performed during a scrape (scrape.py lines 76-87)
yields exactly one committed Profile row per `(site, externalId)` identity:
the insert is attempted first; on a uniqueness violation the failed insert
is discarded, leaving the committed store unchanged, and the existing row
is re-read by `(site, original_id)` and returned; and a second upsert of
the same identity — a concurrent first-time scrape serialised after this
one — resolves to the same single row with the store unchanged, so no
duplicate is ever created. -/
theorem upsert_identity_unique (db : DBState) (uid name name2 : String)
    (hwf : db.wf) :
    (∀ db1 p, upsertTwitterProfile db uid name = Except.ok (db1, p) →
       countIdentity db1 uid = 1 ∧ p.site = "twitter" ∧ p.original_id = uid) ∧
    (∀ q ∈ db.profiles, identMatch uid q = true →
       upsertTwitterProfile db uid name = Except.ok (db, q)) ∧
    (∀ db1 p, upsertTwitterProfile db uid name = Except.ok (db1, p) →
       upsertTwitterProfile db1 uid name2 = Except.ok (db1, p)) := by
  rcases hwf with ⟨hident, hids, hbound⟩
  have main : ∀ db1 p, upsertTwitterProfile db uid name = Except.ok (db1, p) →
      (countIdentity db1 uid = 1 ∧ p.site = "twitter" ∧ p.original_id = uid) ∧
      upsertTwitterProfile db1 uid name2 = Except.ok (db1, p) := by
    intro db1 p hup
    cases hany : db.profiles.any (identMatch uid) with
    | true =>
      rcases List.any_eq_true.mp hany with ⟨q, hq, hmq⟩
      have heq := upsert_existing db uid name hident q hq hmq
      rw [heq] at hup
      simp only [Except.ok.injEq, Prod.mk.injEq] at hup
      rcases hup with ⟨rfl, rfl⟩
      have hfil := filter_identMatch_singleton uid db.profiles hident q hq hmq
      refine ⟨⟨?_, ?_, ?_⟩, ?_⟩
      · unfold countIdentity
        rw [hfil]
        rfl
      · exact ((identMatch_iff uid q).mp hmq).1
      · exact ((identMatch_iff uid q).mp hmq).2
      · exact upsert_existing db uid name2 hident q hq hmq
    | false =>
      have heq := upsert_fresh db uid name hany
      rw [heq] at hup
      simp only [Except.ok.injEq, Prod.mk.injEq] at hup
      rcases hup with ⟨rfl, rfl⟩
      have hnomatch : ∀ x ∈ db.profiles, ¬(identMatch uid x = true) := by
        intro x hx hm
        have := List.any_eq_true.mpr ⟨x, hx, hm⟩
        rw [hany] at this
        cases this
      have hfilnil : db.profiles.filter (identMatch uid) = [] :=
        List.filter_eq_nil_iff.mpr hnomatch
      have hmnew : identMatch uid
          { id := db.nextId, site := "twitter", original_id := uid, name := name } = true := by
        simp [identMatch]
      have hwf2 := wf_after_fresh db uid name ⟨hident, hids, hbound⟩ hany
      refine ⟨⟨?_, rfl, rfl⟩, ?_⟩
      · unfold countIdentity
        simp only [List.filter_append, hfilnil, List.nil_append, List.filter_cons, hmnew]
        rfl
      · exact upsert_existing _ uid name2 hwf2.1 _
          (List.mem_append.mpr (Or.inr (List.mem_singleton.mpr rfl))) hmnew
  refine ⟨fun db1 p h => (main db1 p h).1, ?_, fun db1 p h => (main db1 p h).2⟩
  intro q hq hmq
  exact upsert_existing db uid name hident q hq hmq

/-- Witness for C1: the fresh upsert of identity 12345 into the empty store
leaves exactly one row with that identity. -/
theorem upsert_identity_unique_w :
    countIdentity
      ⟨[{ id := 0, site := "twitter", original_id := "12345", name := "bob" }], 1, 0⟩
      "12345" = 1 := by
  have h := (upsert_identity_unique exDb "12345" "bob" "carol"
      (by unfold DBState.wf exDb; decide)).1
    ⟨[{ id := 0, site := "twitter", original_id := "12345", name := "bob" }], 1, 0⟩
    { id := 0, site := "twitter", original_id := "12345", name := "bob" }
    (by decide)
  exact h.1

/-- Claim C2: a successful scrape of a fresh account — supported site,
login returning a session, HTTP 200 page, all selectors matching and the
counts parseable, identity not yet in the store — creates exactly one new
Profile row, enqueues exactly the avatar job (carrying the new profile id
and the scraped avatar URL) and the index job (same id), and publishes
exactly one success message on the profile channel whose payload holds
exactly the keys name, site, description, post_count, friend_count,
follower_count and id, with id the new profile id. -/
theorem scrape_fresh_success (username uid : String) (sess : Nat) (f : TwitterFields)
    (w : ScrapeWorld) (db : DBState) (store : Option Pickled)
    (_hwf : db.wf)
    (hlogin : (login_twitter w.login store).res = Except.ok sess)
    (hstatus : w.profileStatus = 200)
    (hid : extractUserId w.profilePage = Except.ok uid)
    (hsec : extractSecondary w.profilePage = Except.ok f)
    (hfresh : db.profiles.any (identMatch uid) = false) :
    (scrape_account "twitter" username w db store).published =
      [("profile",
        [("name", JVal.s username), ("site", JVal.s "twitter"),
         ("description", JVal.s f.description), ("post_count", JVal.n f.post_count),
         ("friend_count", JVal.n f.friend_count), ("follower_count", JVal.n f.follower_count),
         ("id", JVal.n (Int.ofNat db.nextId))])] ∧
    (scrape_account "twitter" username w db store).raised = none ∧
    (scrape_account "twitter" username w db store).jobs =
      [Job.avatar db.nextId f.avatar_url, Job.index db.nextId] ∧
    (scrape_account "twitter" username w db store).db.profiles.length =
      db.profiles.length + 1 ∧
    applyFields f { id := db.nextId, site := "twitter", original_id := uid, name := username }
      ∈ (scrape_account "twitter" username w db store).db.profiles ∧
    ([("name", JVal.s username), ("site", JVal.s "twitter"),
      ("description", JVal.s f.description), ("post_count", JVal.n f.post_count),
      ("friend_count", JVal.n f.friend_count), ("follower_count", JVal.n f.follower_count),
      ("id", JVal.n (Int.ofNat db.nextId))].map Prod.fst =
      ["name", "site", "description", "post_count", "friend_count",
       "follower_count", "id"]) := by
  have hup := upsert_fresh db uid username hfresh
  have hpipe := scrape_pipeline_ok username uid sess f w db _ store _
    hlogin hstatus hid hup hsec
  have hdef := scrape_account_twitter_def username w db store
  rw [hpipe] at hdef
  refine ⟨?_, ?_, ?_, ?_, ?_, ?_⟩
  · rw [hdef]
    rfl
  · rw [hdef]
    rfl
  · rw [hdef]
  · rw [hdef]
    show (commitFields _ _ f).profiles.length = _
    rw [commitFields_length]
    simp
  · rw [hdef]
    show applyFields f _ ∈ (commitFields _ _ f).profiles
    exact mem_commitFields_updated _ f
      { id := db.nextId, site := "twitter", original_id := uid, name := username }
      (List.mem_append.mpr (Or.inr (List.mem_singleton.mpr rfl)))
  · rfl

/-- Witness for C2: scraping the fixture account into the empty store. -/
theorem scrape_fresh_success_w :
    (scrape_account "twitter" "bob" exWorld exDb none).published =
      [("profile",
        [("name", JVal.s "bob"), ("site", JVal.s "twitter"),
         ("description", JVal.s "Hello world"), ("post_count", JVal.n 1234),
         ("friend_count", JVal.n 56), ("follower_count", JVal.n 789),
         ("id", JVal.n 0)])] ∧
    (scrape_account "twitter" "bob" exWorld exDb none).jobs =
      [Job.avatar 0 "https://pbs.twimg.com/a/b.jpg", Job.index 0] := by
  have h := scrape_fresh_success "bob" "12345" 7
    ⟨"Hello world", 1234, 56, 789, "https://pbs.twimg.com/a/b.jpg"⟩
    exWorld exDb none (by unfold DBState.wf exDb; decide) (by decide) (by decide)
    (by decide) (by decide) (by decide)
  exact ⟨h.1, h.2.2.1⟩

/-- Claim C3: for the supported site every scrape attempt publishes exactly
one terminal message on the profile channel; the handler converts an
`HTTPError` into a published coded failure without re-raising; any other
error is published as the generic unknown-error message; and whenever an
error propagates out of `scrape_account`, the one published message is that
unknown-error message — publish-and-escalate happens only for that class. -/
theorem scrape_terminal_message (name : String) (w : ScrapeWorld) (db : DBState)
    (store : Option Pickled) :
    (scrape_account "twitter" name w db store).published.length = 1 ∧
    (∀ code msg, publishOutcome "twitter" name (Except.error (PyError.httpError code msg)) =
      ([("profile", failureMessage name "twitter" code)], none)) ∧
    (∀ data, publishOutcome "twitter" name (Except.ok data) = ([("profile", data)], none)) ∧
    (∀ e, (scrape_account "twitter" name w db store).raised = some e →
      (scrape_account "twitter" name w db store).published =
        [("profile", unknownMessage name "twitter")]) := by
  have hdef := scrape_account_twitter_def name w db store
  refine ⟨?_, fun code msg => rfl, fun data => rfl, ?_⟩
  · rw [hdef]
    cases h : (scrape_twitter_account name w db store).result with
    | ok d => rfl
    | error e => cases e <;> rfl
  · intro e he
    rw [hdef] at he ⊢
    cases h : (scrape_twitter_account name w db store).result with
    | ok d =>
      rw [h] at he
      simp [publishOutcome] at he
    | error e2 =>
      cases e2 <;> first
        | rfl
        | (rw [h] at he; simp [publishOutcome] at he)

/-- Witness for C3 at a world whose scrape raises: the one published
message is the unknown-error message. -/
theorem scrape_terminal_message_w :
    (scrape_account "twitter" "bob" { exWorld with profileStatus := 404 } exDb
       (some (Pickled.good 7))).published =
      [("profile", unknownMessage "bob" "twitter")] := by
  exact (scrape_terminal_message "bob" { exWorld with profileStatus := 404 } exDb
      (some (Pickled.good 7))).2.2.2
    (PyError.typeError
      "HTTPError called with unexpected keyword argument message and missing url, msg, hdrs")
    (by decide)

/-- Claim C4 (code bug): the spec expects a 404 fetch to publish a failure
message with error_code 404 and the text Profile not found.  The code
cannot: `raise HTTPError(code=..., message=...)` calls
`urllib.error.HTTPError.__init__`, whose signature is
`(url, code, msg, hdrs, fp)`, with an unexpected keyword argument, so the
raise site itself raises `TypeError`; the generic handler then publishes the
unknown-error message — which carries no error_code key — and re-raises.
The intended `except HTTPError` branch with its 404 mapping is unreachable. -/
theorem fetch404_unknown :
    scrape_account "twitter" "bob" { exWorld with profileStatus := 404 } exDb
        (some (Pickled.good 7)) =
      ⟨[("profile", unknownMessage "bob" "twitter")],
       some (PyError.typeError
         "HTTPError called with unexpected keyword argument message and missing url, msg, hdrs"),
       exDb, some (Pickled.good 7), []⟩ ∧
    (unknownMessage "bob" "twitter").lookup "error_code" = none ∧
    (failureMessage "bob" "twitter" 404).lookup "error_code" = some (JVal.n 404) ∧
    (failureMessage "bob" "twitter" 404).lookup "error" =
      some (JVal.s "Profile not found.") := by
  refine ⟨?_, ?_, ?_, ?_⟩ <;> decide

/-- Claim C5 counterexample: on a page whose identity selector matches
nothing the claimed NotFound outcome does not occur: the published failure
is the unknown-error message, which differs from the 404-style message and
carries no error_code, and the raw `IndexError` is re-raised. -/
theorem identity_miss_not_notfound :
    (scrape_account "twitter" "bob" wNoIdentity exDb (some (Pickled.good 7))).published =
      [("profile", unknownMessage "bob" "twitter")] ∧
    (scrape_account "twitter" "bob" wNoIdentity exDb (some (Pickled.good 7))).raised =
      some PyError.indexError ∧
    unknownMessage "bob" "twitter" ≠ failureMessage "bob" "twitter" 404 := by
  refine ⟨?_, ?_, ?_⟩ <;> decide

theorem extractUserId_err_of_empty (page : Page)
    (h : page.select ".ProfileNav-item--userActions .user-actions" = []) :
    extractUserId page = Except.error PyError.indexError := by
  unfold extractUserId selectFirst
  rw [h]
  rfl

theorem scrape_pipeline_userid_err (username : String) (sess : Nat) (e : PyError)
    (w : ScrapeWorld) (db : DBState) (store : Option Pickled)
    (hlogin : (login_twitter w.login store).res = Except.ok sess)
    (hstatus : w.profileStatus = 200)
    (hid : extractUserId w.profilePage = Except.error e) :
    scrape_twitter_account username w db store =
      ⟨Except.error e, db, (login_twitter w.login store).store, []⟩ := by
  unfold scrape_twitter_account
  simp only [hlogin, hstatus, hid]
  simp

/-- Claim C5 amended: zero matches for the identity selector, exactly like
zero matches for a secondary field selector, yields the Unknown-classified
outcome — the generic unknown-error failure message is published (never the
NotFound/404-style message, which only the unreachable HTTPError path could
produce) and the raw `IndexError` is re-raised to the supervising retry
mechanism.  The source does not distinguish the identity selector from the
secondary ones. -/
theorem selector_miss_unknown (name : String) (w : ScrapeWorld) (db : DBState)
    (store : Option Pickled) (sess : Nat)
    (hwf : db.wf)
    (hlogin : (login_twitter w.login store).res = Except.ok sess)
    (hstatus : w.profileStatus = 200) :
    (w.profilePage.select ".ProfileNav-item--userActions .user-actions" = [] →
      (scrape_account "twitter" name w db store).published =
        [("profile", unknownMessage name "twitter")] ∧
      (scrape_account "twitter" name w db store).raised = some PyError.indexError) ∧
    (∀ uid, extractUserId w.profilePage = Except.ok uid →
      extractSecondary w.profilePage = Except.error PyError.indexError →
      (scrape_account "twitter" name w db store).published =
        [("profile", unknownMessage name "twitter")] ∧
      (scrape_account "twitter" name w db store).raised = some PyError.indexError) := by
  have hdef := scrape_account_twitter_def name w db store
  constructor
  · intro hsel
    have hid := extractUserId_err_of_empty w.profilePage hsel
    have hpipe := scrape_pipeline_userid_err name sess PyError.indexError w db store
      hlogin hstatus hid
    rw [hpipe] at hdef
    rw [hdef]
    exact ⟨rfl, rfl⟩
  · intro uid hid hsec
    rcases upsert_ok db uid name hwf.1 with ⟨db1, p, hup⟩
    have hpipe := scrape_pipeline_secondary_err name uid sess PyError.indexError
      w db db1 store p hlogin hstatus hid hup hsec
    rw [hpipe] at hdef
    rw [hdef]
    exact ⟨rfl, rfl⟩

/-- Witness for the amended C5: the fixture page missing the bio selector
publishes the unknown-error message and re-raises the IndexError. -/
theorem selector_miss_unknown_w :
    (scrape_account "twitter" "bob" wNoBio exDb (some (Pickled.good 7))).published =
      [("profile", unknownMessage "bob" "twitter")] ∧
    (scrape_account "twitter" "bob" wNoBio exDb (some (Pickled.good 7))).raised =
      some PyError.indexError := by
  exact (selector_miss_unknown "bob" wNoBio exDb (some (Pickled.good 7)) 7
      (by unfold DBState.wf exDb; decide) (by decide) (by decide)).2
    "12345" (by decide) (by decide)

/-- Claim C6 (code bug): a 302 redirect back to the login page is meant to
fail as a distinct authentication error; the code reaches
`raise click.ClickException(...)` but the module never imports `click`, so
evaluating the unbound name raises `NameError` instead.  A non-302 status
fails as a `ValueError` (the transient-error class); the two failures are
still distinct and neither path writes the SessionStore. -/
theorem login_redirect_nameError :
    login_twitter badCredLogin none =
      ⟨Except.error (PyError.nameError "click"), none, 2, 0⟩ ∧
    login_twitter { badCredLogin with loginStatus := 500 } none =
      ⟨Except.error (PyError.valueError "Not able to log in to Twitter 500"), none, 2, 0⟩ ∧
    PyError.nameError "click" ≠ PyError.valueError "Not able to log in to Twitter 500" := by
  refine ⟨?_, ?_, ?_⟩ <;> decide

/-- Claim C7: if a scrape aborts with an error — in particular when the
field-assignment step fails after identity resolution but before the final
commit — the committed store holds no partially-updated row: every row is
either a pre-existing row, byte-for-byte unchanged, or the bare
identity-only row of a fresh insert carrying none of the scraped fields
(the field assignments reach the store only through the single final
commit, which never ran). -/
theorem no_partial_row (username : String) (w : ScrapeWorld) (db : DBState)
    (store : Option Pickled) (e : PyError)
    (herr : (scrape_twitter_account username w db store).result = Except.error e) :
    ∀ p ∈ (scrape_twitter_account username w db store).db.profiles,
      p ∈ db.profiles ∨
      (p.description = none ∧ p.post_count = none ∧ p.friend_count = none ∧
       p.follower_count = none) := by
  intro p hp
  cases hl : (login_twitter w.login store).res with
  | error el =>
    simp only [scrape_twitter_account, hl] at hp
    exact Or.inl hp
  | ok sess =>
    by_cases hs : w.profileStatus = 200
    · cases hid : extractUserId w.profilePage with
      | error e2 =>
        simp only [scrape_twitter_account, hl, hs, hid] at hp
        simp at hp
        exact Or.inl hp
      | ok uid =>
        cases hup : upsertTwitterProfile db uid username with
        | error e3 =>
          simp only [scrape_twitter_account, hl, hs, hid, hup] at hp
          simp at hp
          exact Or.inl hp
        | ok pair =>
          rcases pair with ⟨db1, q⟩
          cases hsec : extractSecondary w.profilePage with
          | ok f =>
            have hpipe := scrape_pipeline_ok username uid sess f w db db1 store q
              hl hs hid hup hsec
            rw [hpipe] at herr
            cases herr
          | error e4 =>
            have hpipe := scrape_pipeline_secondary_err username uid sess e4
              w db db1 store q hl hs hid hup hsec
            rw [hpipe] at hp
            rcases upsert_db_cases db uid username db1 q hup with rfl | happ
            · exact Or.inl hp
            · rw [happ] at hp
              rcases List.mem_append.mp hp with hin | hnew
              · exact Or.inl hin
              · rcases List.mem_singleton.mp hnew with rfl
                exact Or.inr ⟨rfl, rfl, rfl, rfl⟩
    · simp only [scrape_twitter_account, hl] at hp
      rw [if_pos hs] at hp
      exact Or.inl hp

/-- Witness for C7: the bio-less fixture page aborts the scrape after the
fresh identity insert; the one row left behind carries none of the scraped
fields. -/
theorem no_partial_row_w :
    ({ id := 0, site := "twitter", original_id := "12345", name := "bob" } : Profile)
        ∈ exDb.profiles ∨
      (({ id := 0, site := "twitter", original_id := "12345", name := "bob" }
          : Profile).description = none ∧
       ({ id := 0, site := "twitter", original_id := "12345", name := "bob" }
          : Profile).post_count = none ∧
       ({ id := 0, site := "twitter", original_id := "12345", name := "bob" }
          : Profile).friend_count = none ∧
       ({ id := 0, site := "twitter", original_id := "12345", name := "bob" }
          : Profile).follower_count = none) := by
  exact no_partial_row "bob" wNoBio exDb (some (Pickled.good 7)) PyError.indexError
    (by decide)
    { id := 0, site := "twitter", original_id := "12345", name := "bob" }
    (by decide)

theorem login_fresh_writes (w : LoginWorld) (store : Option Pickled)
    (hw : (login_twitter_fresh w store).storeWrites ≠ 0) :
    login_twitter_fresh w store =
      ⟨Except.ok w.freshSession, some (Pickled.good w.freshSession), 2, 1⟩ := by
  by_cases h1 : w.homeStatus ≠ 200
  · exfalso
    apply hw
    simp only [login_twitter_fresh, if_pos h1]
  · cases h2 : w.homePage.select "input[name=authenticity_token]" with
    | nil =>
      exfalso
      apply hw
      simp only [login_twitter_fresh, if_neg h1, h2]
    | cons el rest =>
      cases h3 : el.attrE "value" with
      | error e =>
        exfalso
        apply hw
        simp only [login_twitter_fresh, if_neg h1, h2, h3]
      | ok csrf =>
        by_cases h4 : w.loginStatus ≠ 302
        · exfalso
          apply hw
          simp only [login_twitter_fresh, if_neg h1, h2, h3, if_pos h4]
        · cases h5 : w.loginLocation with
          | none =>
            exfalso
            apply hw
            simp only [login_twitter_fresh, if_neg h1, h2, h3, if_neg h4, h5]
          | some loc =>
            by_cases h6 : strLeading "https://twitter.com/login" loc = true
            · exfalso
              apply hw
              simp only [login_twitter_fresh, if_neg h1, h2, h3, if_neg h4, h5, if_pos h6]
            · simp only [login_twitter_fresh, if_neg h1, h2, h3, if_neg h4, h5, if_neg h6]

/-- Claim C8: a cached session that deserializes is returned immediately: no
login network call is made and the SessionStore cell is left untouched;
and whenever the SessionStore is written at all, it was the fresh-login path
that succeeded (two network calls, the new session returned and stored). -/
theorem cached_session_fast_path (w : LoginWorld) (s : Nat) :
    (login_twitter w (some (Pickled.good s))).res = Except.ok s ∧
    (login_twitter w (some (Pickled.good s))).netCalls = 0 ∧
    (login_twitter w (some (Pickled.good s))).storeWrites = 0 ∧
    (login_twitter w (some (Pickled.good s))).store = some (Pickled.good s) ∧
    (∀ store : Option Pickled, (login_twitter w store).storeWrites ≠ 0 →
      (login_twitter w store).res = Except.ok w.freshSession ∧
      (login_twitter w store).store = some (Pickled.good w.freshSession) ∧
      (login_twitter w store).netCalls = 2) := by
  refine ⟨rfl, rfl, rfl, rfl, ?_⟩
  intro store hw
  match store with
  | some (Pickled.good t) => exact absurd rfl hw
  | none =>
    have h := login_fresh_writes w none hw
    refine ⟨?_, ?_, ?_⟩
    · show (login_twitter_fresh w none).res = _
      rw [h]
    · show (login_twitter_fresh w none).store = _
      rw [h]
    · show (login_twitter_fresh w none).netCalls = _
      rw [h]
  | some Pickled.bad =>
    have h := login_fresh_writes w (some Pickled.bad) hw
    refine ⟨?_, ?_, ?_⟩
    · show (login_twitter_fresh w (some Pickled.bad)).res = _
      rw [h]
    · show (login_twitter_fresh w (some Pickled.bad)).store = _
      rw [h]
    · show (login_twitter_fresh w (some Pickled.bad)).netCalls = _
      rw [h]

/-- Witness for C8: the fixture cache hit returns the cached session with
no writes, and a fresh login from an empty cache is the only writer. -/
theorem cached_session_fast_path_w :
    (login_twitter exLogin (some (Pickled.good 7))).res = Except.ok 7 ∧
    (login_twitter exLogin none).res = Except.ok exLogin.freshSession := by
  constructor
  · exact (cached_session_fast_path exLogin 7).1
  · exact ((cached_session_fast_path exLogin 7).2.2.2.2 none (by decide)).1

/-- Claim C9: a non-200 avatar download fails with the bare download
`ValueError()` before any state change: the returned store is exactly the
input store (no File asset, no avatar-collection mutation, no commit) and
nothing is published on the avatar channel — for every store, including one
holding no profile with the given id, showing the profile-existence check
(whose failure is the described `ValueError`) runs only after the
download succeeds. -/
theorem avatar_non200_no_effect (id_ : Nat) (url : String) (w : AvatarWorld)
    (db : DBState) (h : w.status ≠ 200) :
    scrape_twitter_avatar id_ url w db =
      ⟨Except.error (PyError.valueError ""), db, []⟩ ∧
    PyError.valueError "" ≠
      PyError.valueError ("No profile exists with id=" ++ toString id_) := by
  constructor
  · unfold scrape_twitter_avatar
    rw [if_pos h]
  · intro hcon
    injection hcon with h
    have h2 := congrArg String.length h
    rw [String.length_append] at h2
    have h3 : ("" : String).length = 0 := rfl
    have h4 : ("No profile exists with id=" : String).length = 26 := rfl
    rw [h3, h4] at h2
    omega

/-- Witness for C9: a 404 download against the empty store (which also has
no profile 3) changes nothing and fails with the download error. -/
theorem avatar_non200_no_effect_w :
    scrape_twitter_avatar 3 "http://x/y/z.png" ⟨404, none, "bytes"⟩ exDb =
      ⟨Except.error (PyError.valueError ""), exDb, []⟩ :=
  (avatar_non200_no_effect 3 "http://x/y/z.png" ⟨404, none, "bytes"⟩ exDb
    (by decide)).1

/-- Claim C10: when the upsert resolves to an already-existing row, the
stored display name is never reassigned — only description and the three
counts are updated — while the success message published for the scrape
carries the newly supplied handle; no row is added. -/
theorem existing_row_keeps_name (username uid : String) (sess : Nat) (f : TwitterFields)
    (w : ScrapeWorld) (db : DBState) (store : Option Pickled) (p : Profile)
    (hwf : db.wf)
    (hp : p ∈ db.profiles) (hsite : p.site = "twitter") (hoid : p.original_id = uid)
    (hlogin : (login_twitter w.login store).res = Except.ok sess)
    (hstatus : w.profileStatus = 200)
    (hid : extractUserId w.profilePage = Except.ok uid)
    (hsec : extractSecondary w.profilePage = Except.ok f) :
    applyFields f p ∈ (scrape_account "twitter" username w db store).db.profiles ∧
    (applyFields f p).name = p.name ∧
    (∀ q ∈ (scrape_account "twitter" username w db store).db.profiles,
      q.id = p.id → q.name = p.name) ∧
    (scrape_account "twitter" username w db store).published =
      [("profile",
        [("name", JVal.s username), ("site", JVal.s "twitter"),
         ("description", JVal.s f.description), ("post_count", JVal.n f.post_count),
         ("friend_count", JVal.n f.friend_count), ("follower_count", JVal.n f.follower_count),
         ("id", JVal.n (Int.ofNat p.id))])] ∧
    (scrape_account "twitter" username w db store).db.profiles.length =
      db.profiles.length := by
  have hm : identMatch uid p = true := (identMatch_iff uid p).mpr ⟨hsite, hoid⟩
  have hup := upsert_existing db uid username hwf.1 p hp hm
  have hpipe := scrape_pipeline_ok username uid sess f w db db store p
    hlogin hstatus hid hup hsec
  have hdef := scrape_account_twitter_def username w db store
  rw [hpipe] at hdef
  rw [hdef]
  refine ⟨?_, rfl, ?_, rfl, ?_⟩
  · exact mem_commitFields_updated db f p hp
  · intro q hq hqid
    rcases mem_of_commitFields db p.id f q hq with ⟨r, hr, hrq⟩
    by_cases hb : (r.id == p.id) = true
    · have hre : r = p := eq_of_pairwise_ids db.profiles hwf.2.1 r hr p hp (beq_iff_eq.mp hb)
      rw [hb] at hrq
      simp at hrq
      rw [hrq, hre]
      rfl
    · have hbf : (r.id == p.id) = false := by
        cases hc : r.id == p.id with
        | false => rfl
        | true => exact absurd hc hb
      rw [hbf] at hrq
      simp at hrq
      rw [hrq]
      rw [hrq] at hqid
      exact absurd (beq_iff_eq.mpr hqid) (by rw [hbf]; intro hcon; cases hcon)
  · exact commitFields_length db p.id f

/-- Witness for C10: scraping the fixture account, created earlier under
the handle alice, with the new handle bob keeps the stored name alice while
publishing bob. -/
theorem existing_row_keeps_name_w :
    (applyFields ⟨"Hello world", 1234, 56, 789, "https://pbs.twimg.com/a/b.jpg"⟩
      { id := 0, site := "twitter", original_id := "12345", name := "alice" }).name =
      "alice" ∧
    (scrape_account "twitter" "bob" exWorld exDbAlice (some (Pickled.good 7))).published =
      [("profile",
        [("name", JVal.s "bob"), ("site", JVal.s "twitter"),
         ("description", JVal.s "Hello world"), ("post_count", JVal.n 1234),
         ("friend_count", JVal.n 56), ("follower_count", JVal.n 789),
         ("id", JVal.n 0)])] := by
  have h := existing_row_keeps_name "bob" "12345" 7
    ⟨"Hello world", 1234, 56, 789, "https://pbs.twimg.com/a/b.jpg"⟩
    exWorld exDbAlice (some (Pickled.good 7))
    { id := 0, site := "twitter", original_id := "12345", name := "alice" }
    (by unfold DBState.wf exDbAlice; decide) (by decide) (by decide) (by decide)
    (by decide) (by decide) (by decide) (by decide)
  exact ⟨h.2.1, h.2.2.2.1⟩
